import Mathlib

/-!
Shallow embedding of the mood-to-product recommendation core:
`src/recommender.py`, `src/utils.py` and
`src/integrations/spotify_utils.py`, together with theorems checking the
specification's claims about it.

Conventions of the embedding:
* the pandas `DataFrame` of products is a `List Product`; persistence
  (`to_csv`) is the returned list;
* `np.random.uniform(-0.1, 0.1)` is an explicit perturbation argument
  `perturb : Nat → ℚ` giving the noise added to the item at each index;
* `DataFrame.sample` is an explicit argument
  `sample : List Product → Nat → List Product`;
* `datetime.now().isoformat()` is an explicit `now : String` argument;
* machine floats are modelled as rationals `ℚ`;
* `sort_values(ascending=False)` is `List.insertionSort` on the
  score-descending relation (the claims do not depend on tie order).
-/

/-- A row of the products table (columns of `data/products.csv`). -/
structure Product where
  product_id : Int
  name : String
  price : ℚ
  image_url : String
  mood_tags : String
deriving DecidableEq, Repr

/-- Python `str.lower()` (ASCII case folding, executable in the kernel). -/
def pyLower (s : String) : String := String.mk (s.data.map Char.toLower)

/-- Python `str.strip()`: drop whitespace from both ends. -/
def pyStrip (s : String) : String :=
  String.mk (((s.data.dropWhile Char.isWhitespace).reverse.dropWhile
    Char.isWhitespace).reverse)

/-- Python `str.split(sep)` for a one-character separator. -/
def splitOnChar (c : Char) : List Char → List (List Char)
  | [] => [[]]
  | x :: xs =>
      let rest := splitOnChar c xs
      if x = c then [] :: rest
      else
        match rest with
        | [] => [[x]]
        | g :: gs => (x :: g) :: gs

/-- Python `s.split(',')` on a `String`. -/
def pySplitComma (s : String) : List String :=
  (splitOnChar ',' s.data).map String.mk

/-- `src/recommender.py` line 62:
`[tag.strip() for tag in str(product['mood_tags']).lower().split(',')]`. -/
def product_tag_list (mood_tags : String) : List String :=
  (pySplitComma (pyLower mood_tags)).map (fun tag => pyStrip tag)

/-- `src/recommender.py` `_create_emotion_mapping` (lines 15-24). -/
def _create_emotion_mapping : List (String × List String) :=
  [("happy", ["entertainment", "social", "celebration", "joy", "fun", "colorful"]),
   ("sad", ["comfort", "cozy", "self-care", "healing", "soft", "warm"]),
   ("angry", ["stress-relief", "physical", "intense", "powerful", "bold"]),
   ("surprise", ["unique", "innovative", "exciting", "novel", "creative"]),
   ("fear", ["safety", "security", "protective", "calming", "reassuring"]),
   ("disgust", ["cleansing", "fresh", "pure", "minimal", "detox"]),
   ("neutral", ["practical", "everyday", "basic", "functional", "versatile"])]

/-- `src/recommender.py` lines 63-64: `intersection = set(emotion_tags) & set(product_tags)`;
`score = len(intersection) / len(set(emotion_tags) | set(product_tags))`.
The division of the two set cardinalities is modelled as the exact rational
`mkRat |E ∩ T| |E ∪ T|` (the denominator is nonzero at every call site,
since the emotion's descriptor tag list is never empty). -/
def jaccard_score (emotion_tags product_tags : List String) : ℚ :=
  mkRat ((emotion_tags.dedup.filter (fun x => x ∈ product_tags)).length : Int)
    ((emotion_tags ++ product_tags).dedup.length)

/-- The per-item perturbed score list built by the loop in
`src/recommender.py` lines 60-66: item at index `i` gets
`jaccard_score + perturb i` (the code draws `perturb i` from
`np.random.uniform(-0.1, 0.1)`). -/
def scoredList (emotion_tags : List String) (perturb : Nat → ℚ) :
    Nat → List Product → List (Product × ℚ)
  | _, [] => []
  | i, p :: ps =>
      (p, jaccard_score emotion_tags (product_tag_list p.mood_tags) + perturb i) ::
        scoredList emotion_tags perturb (i + 1) ps

/-- Score-descending comparison used to model
`sort_values('relevance_score', ascending=False)`. -/
def scoreGE (a b : Product × ℚ) : Prop := b.2 ≤ a.2

instance : DecidableRel scoreGE := fun a b => inferInstanceAs (Decidable (b.2 ≤ a.2))

instance : IsTotal (Product × ℚ) scoreGE :=
  ⟨fun a b => by unfold scoreGE; exact le_total b.2 a.2⟩

instance : IsTrans (Product × ℚ) scoreGE :=
  ⟨fun _ _ _ h1 h2 => le_trans h2 h1⟩

/-- The known-emotion branch of `get_recommendations`
(`src/recommender.py` lines 59-69): score every row, sort descending by
perturbed score, take the head `n` rows, drop the score column. -/
def rankKnown (emotion_tags : List String) (perturb : Nat → ℚ)
    (catalog : List Product) (n : Nat) : List Product :=
  (((scoredList emotion_tags perturb 0 catalog).insertionSort scoreGE).take n).map
    Prod.fst

/-- `src/recommender.py` `get_recommendations` (lines 53-69).
Empty/absent catalog: empty result.  Unknown (lower-cased, NOT trimmed)
emotion: `df.sample(n=min(n_recommendations, len(df)))`.  Known emotion:
the Jaccard ranking `rankKnown`. -/
def get_recommendations (catalog : List Product) (emotion : String)
    (n_recommendations : Nat) (perturb : Nat → ℚ)
    (sample : List Product → Nat → List Product) : List Product :=
  if catalog.isEmpty then []
  else
    match _create_emotion_mapping.lookup (pyLower emotion) with
    | none => sample catalog (min n_recommendations catalog.length)
    | some emotion_tags => rankKnown emotion_tags perturb catalog n_recommendations

/-! ### Catalog add and validation (`src/recommender.py` / `src/utils.py`) -/

/-- A Python value as it can appear in a `product_data` dict. -/
inductive PyValue where
  | int (i : Int)
  | float (q : ℚ)
  | str (s : String)
deriving DecidableEq

/-- A `product_data` dict: association list from field name to value. -/
def ProductData : Type := List (String × PyValue)

/-- Whether Python `float(v)` succeeds.  For strings this models the plain
decimal-literal forms (optional sign, digits, at most one dot); the claims
never exercise exotic string forms such as `"1e5"`. -/
def pyFloatConvertible : PyValue → Bool
  | .int _ => true
  | .float _ => true
  | .str s =>
      let t := pyStrip s
      let u := if t.startsWith "-" || t.startsWith "+" then t.drop 1 else t
      u.data.any Char.isDigit && u.data.all (fun c => c.isDigit || c = '.') &&
        u.data.count '.' ≤ 1

/-- Whether Python `int(v)` succeeds (`int` of a float truncates and
succeeds; an integer-literal string succeeds). -/
def pyIntConvertible : PyValue → Bool
  | .int _ => true
  | .float _ => true
  | .str s =>
      let t := pyStrip s
      let u := if t.startsWith "-" || t.startsWith "+" then t.drop 1 else t
      u.data.any Char.isDigit && u.data.all Char.isDigit

/-- The `required_fields` list of `validate_product_data`
(`src/utils.py` line 98). -/
def required_fields : List String := ["product_id", "name", "price", "mood_tags"]

/-- The `for field in required_fields` presence loop
(`src/utils.py` lines 99-101): first missing field, if any. -/
def firstMissingField (product_data : ProductData) : List String → Option String
  | [] => none
  | f :: fs =>
      if (product_data.lookup f).isNone then some f
      else firstMissingField product_data fs

/-- `src/utils.py` `validate_product_data` (lines 97-107): required-field
presence, then `float(price)` and `int(product_id)` conversion checks.
No check of the sign of `price` is performed. -/
def validate_product_data (product_data : ProductData) : Bool × String :=
  match firstMissingField product_data required_fields with
  | some f => (false, "Missing required field: " ++ f)
  | none =>
      let priceOk := match product_data.lookup "price" with
        | some v => pyFloatConvertible v
        | none => false
      let idOk := match product_data.lookup "product_id" with
        | some v => pyIntConvertible v
        | none => false
      if priceOk && idOk then (true, "Valid")
      else (false, "Invalid format in price or product_id")

/-- `src/recommender.py` `add_product` (lines 77-81): unconditionally
concatenate the new row and persist the whole table (the persisted table
is the returned list).  No call to `validate_product_data` is made. -/
def add_product (products_df : List ProductData) (product_data : ProductData) :
    List ProductData :=
  products_df ++ [product_data]

/-! ### Feedback log (`src/utils.py`) -/

/-- A row of `data/feedback.csv` (`src/utils.py` lines 39, 45-52). -/
structure FeedbackRecord where
  timestamp : String
  detected_emotion : String
  confidence : ℚ
  rating : ℚ
  feedback_text : String
  num_recommendations : Int
deriving DecidableEq

/-- `src/utils.py` `log_feedback` (lines 43-59): build the new row with the
call-time timestamp (`datetime.now().isoformat()` is the explicit `now`
argument), read the existing log, concatenate, rewrite in full.  No
validation of `rating` or `confidence` is performed. -/
def log_feedback (df : List FeedbackRecord) (now : String) (emotion : String)
    (confidence : ℚ) (rating : ℚ) (feedback_text : String)
    (num_recommendations : Int) : List FeedbackRecord :=
  df ++ [{ timestamp := now, detected_emotion := emotion, confidence := confidence,
           rating := rating, feedback_text := feedback_text,
           num_recommendations := num_recommendations }]

/-- The summary dict returned by `export_feedback_summary`. -/
structure FeedbackSummary where
  total_feedback : Nat
  average_rating : ℚ
  emotion_distribution : String → Nat
  confidence_mean : ℚ
  confidence_min : ℚ
  confidence_max : ℚ

/-- `src/utils.py` `export_feedback_summary` (lines 109-127): `None` on an
empty/absent log, otherwise row count, mean rating, emotion value counts
(as the count function of `value_counts().to_dict()`), and
mean/min/max of the confidence column. -/
def export_feedback_summary (df : List FeedbackRecord) : Option FeedbackSummary :=
  if df.isEmpty then none
  else some
    { total_feedback := df.length
      average_rating := (df.map (fun r => r.rating)).sum / (df.length : ℚ)
      emotion_distribution := fun e =>
        (df.filter (fun r => r.detected_emotion == e)).length
      confidence_mean := (df.map (fun r => r.confidence)).sum / (df.length : ℚ)
      confidence_min := ((df.map (fun r => r.confidence)).min?).getD 0
      confidence_max := ((df.map (fun r => r.confidence)).max?).getD 0 }

/-! ### Spotify adapter (`src/integrations/spotify_utils.py`) -/

/-- A normalized playlist record as built by `_search_playlists`
(`src/integrations/spotify_utils.py` lines 88-95). -/
structure Playlist where
  name : String
  url : String
  image : Option String
  description : String
  total_tracks : Nat
  owner : String
deriving DecidableEq

/-- `mood_keywords` (`src/integrations/spotify_utils.py` lines 27-38). -/
def mood_keywords : List (String × List String) :=
  [("happy", ["happy", "upbeat", "positive", "cheerful", "joyful"]),
   ("sad", ["sad", "melancholy", "emotional", "heartbreak", "blue"]),
   ("angry", ["angry", "rage", "metal", "punk", "aggressive"]),
   ("surprised", ["energetic", "exciting", "surprise", "uplifting", "dynamic"]),
   ("fear", ["calm", "relaxing", "soothing", "peaceful", "meditation"]),
   ("disgust", ["alternative", "indie", "experimental", "unique", "different"]),
   ("neutral", ["chill", "ambient", "focus", "study", "background"]),
   ("energetic", ["workout", "pump up", "energetic", "motivation", "power"]),
   ("relaxed", ["chill", "lounge", "ambient", "relaxing", "calm"]),
   ("romantic", ["love", "romantic", "valentine", "date night", "intimate"])]

/-- `_get_search_terms` (lines 70-73): lower-case and strip the mood, look
it up, fall back to the generic term set. -/
def _get_search_terms (mood : String) : List String :=
  (mood_keywords.lookup (pyStrip (pyLower mood))).getD ["music", "playlist", "songs"]

/-- The term loop of `get_playlists_by_mood` (lines 132-138): one search
per term (the provider's reply to the query string is the `search`
argument), extending the accumulator, breaking once it holds at least
`2 * n_playlists` raw results. -/
def gatherPlaylists (search : String → List Playlist) (target : Nat) :
    List Playlist → List String → List Playlist
  | acc, [] => acc
  | acc, term :: rest =>
      let acc2 := acc ++ search (term ++ " playlist")
      if target ≤ acc2.length then acc2
      else gatherPlaylists search target acc2 rest

/-- The quality condition of lines 147-148:
`len(playlist['name']) > 3 and playlist['total_tracks'] > 10`. -/
def qualityOk (p : Playlist) : Bool :=
  decide (3 < p.name.length) && decide (10 < p.total_tracks)

/-- The dedup-and-filter loop of `get_playlists_by_mood` (lines 140-154):
skip a candidate whose lower-cased name was already accepted or which
fails the quality condition; otherwise record its name, append it, and
break once `n_playlists` candidates have been accepted. -/
def dedupFilter (n_playlists : Nat) (seen_names : List String)
    (unique_playlists : List Playlist) : List Playlist → List Playlist
  | [] => unique_playlists
  | p :: ps =>
      let name_lower := pyLower p.name
      if name_lower ∉ seen_names ∧ qualityOk p then
        let acc2 := unique_playlists ++ [p]
        if n_playlists ≤ acc2.length then acc2
        else dedupFilter n_playlists (name_lower :: seen_names) acc2 ps
      else dedupFilter n_playlists seen_names unique_playlists ps

/-- `get_playlists_by_mood` (lines 109-161).  `client_available` models
whether `self.client` is non-`None` (`Unavailable` state ⇔ `false`);
`mood` is `Option String` so the Python `None` argument is expressible;
`search` is the provider reply per query string. -/
def get_playlists_by_mood (client_available : Bool)
    (search : String → List Playlist) (mood : Option String)
    (n_playlists : Nat) : List Playlist :=
  if !client_available then []
  else
    let moodStr := match mood with
      | none => "music"
      | some m => if m = "" then "music" else m
    let search_terms := _get_search_terms moodStr
    let all_playlists := gatherPlaylists search (2 * n_playlists) [] (search_terms.take 3)
    (dedupFilter n_playlists [] [] all_playlists).take n_playlists

instance : DecidableEq ProductData :=
  inferInstanceAs (DecidableEq (List (String × PyValue)))

/-! ### Concrete fixtures used by witnesses and counterexamples -/

/-- Zero perturbation (one admissible draw of `np.random.uniform(-0.1, 0.1)`). -/
def zeroPerturb : Nat → ℚ := fun _ => 0

/-- A sampler returning no rows (an admissible `DataFrame.sample` stub for
branch arguments; the unknown-emotion branch is the only caller). -/
def emptySample : List Product → Nat → List Product := fun _ _ => []

/-- The single-item catalog of the end-to-end scenario (the first sample
product of `_create_sample_products`, `src/recommender.py` lines 40-42). -/
def headphonesItem : Product :=
  { product_id := 1
    name := "Wireless Bluetooth Headphones"
    price := mkRat 9999 100
    image_url := "https://images.unsplash.com/photo-1505740420928-5e560c06d30e?w=300"
    mood_tags := "entertainment, music, joy, fun" }

/-- A catalog item whose tags exactly match the `happy` descriptor set. -/
def prodA : Product :=
  { product_id := 1
    name := "Party Speaker"
    price := mkRat 10 1
    image_url := ""
    mood_tags := "entertainment, social, celebration, joy, fun, colorful" }

/-- A catalog item with tags disjoint from the `happy` descriptor set. -/
def prodB : Product :=
  { product_id := 2
    name := "Desk Organizer"
    price := mkRat 5 1
    image_url := ""
    mood_tags := "practical, everyday" }

/-- A quality-passing playlist named `"Happy Vibes"`. -/
def happyVibesMix : Playlist :=
  { name := "Happy Vibes"
    url := "https://open.spotify.com/playlist/1"
    image := none
    description := ""
    total_tracks := 50
    owner := "alice" }

/-- A quality-passing playlist named `"happy vibes"` (same name up to case). -/
def happyVibesLower : Playlist :=
  { name := "happy vibes"
    url := "https://open.spotify.com/playlist/2"
    image := none
    description := ""
    total_tracks := 40
    owner := "bob" }

/-- A playlist named `"Happy Vibes"` failing the quality filter
(`total_tracks = 5 ≤ 10`). -/
def happyVibesSmall : Playlist :=
  { name := "Happy Vibes"
    url := "https://open.spotify.com/playlist/3"
    image := none
    description := ""
    total_tracks := 5
    owner := "carol" }

/-- Boundary playlist: name length 4, track count 11 (passes the filter). -/
def boundaryPass : Playlist :=
  { name := "abcd", url := "u", image := none, description := "", total_tracks := 11, owner := "o" }

/-- Boundary playlist: name length 3 (dropped by the filter). -/
def boundaryShortName : Playlist :=
  { name := "abc", url := "u", image := none, description := "", total_tracks := 50, owner := "o" }

/-- Boundary playlist: track count 10 (dropped by the filter). -/
def boundaryFewTracks : Playlist :=
  { name := "abcd", url := "u", image := none, description := "", total_tracks := 10, owner := "o" }

/-- A `product_data` dict lacking the required `price` field. -/
def missingPriceProduct : ProductData :=
  [("product_id", PyValue.int 7), ("name", PyValue.str "Gadget"),
   ("mood_tags", PyValue.str "fun, practical")]

/-- A `product_data` dict whose `price` is the negative number `-5`. -/
def negativePriceProduct : ProductData :=
  [("product_id", PyValue.int 7), ("name", PyValue.str "Gadget"),
   ("price", PyValue.float (mkRat (-5) 1)),
   ("mood_tags", PyValue.str "fun, practical")]

/-! ### Helper lemmas about the ranker -/

theorem scoredList_map_fst (tags : List String) (perturb : Nat → ℚ) :
    ∀ (i : Nat) (catalog : List Product),
      (scoredList tags perturb i catalog).map Prod.fst = catalog
  | _, [] => rfl
  | i, p :: ps => by
      simp [scoredList, scoredList_map_fst tags perturb (i + 1) ps]

theorem scoredList_length (tags : List String) (perturb : Nat → ℚ)
    (i : Nat) (catalog : List Product) :
    (scoredList tags perturb i catalog).length = catalog.length := by
  have h := scoredList_map_fst tags perturb i catalog
  calc (scoredList tags perturb i catalog).length
      = ((scoredList tags perturb i catalog).map Prod.fst).length := by
        rw [List.length_map]
    _ = catalog.length := by rw [h]

theorem rankKnown_length (tags : List String) (perturb : Nat → ℚ)
    (catalog : List Product) (n : Nat) :
    (rankKnown tags perturb catalog n).length = min n catalog.length := by
  unfold rankKnown
  rw [List.length_map, List.length_take,
    (List.perm_insertionSort scoreGE _).length_eq, scoredList_length]

theorem rankKnown_mem (tags : List String) (perturb : Nat → ℚ)
    (catalog : List Product) (n : Nat) (p : Product)
    (hp : p ∈ rankKnown tags perturb catalog n) : p ∈ catalog := by
  unfold rankKnown at hp
  obtain ⟨x, hx, rfl⟩ := List.mem_map.1 hp
  have hx2 : x ∈ (scoredList tags perturb 0 catalog).insertionSort scoreGE :=
    List.mem_of_mem_take hx
  rw [List.mem_insertionSort] at hx2
  have := List.mem_map_of_mem Prod.fst hx2
  rwa [scoredList_map_fst] at this

theorem rankKnown_nodup_ids (tags : List String) (perturb : Nat → ℚ)
    (catalog : List Product) (n : Nat)
    (h : (catalog.map (fun p => p.product_id)).Nodup) :
    ((rankKnown tags perturb catalog n).map (fun p => p.product_id)).Nodup := by
  unfold rankKnown
  rw [List.map_map]
  have hsub :
      List.Sublist
        ((((scoredList tags perturb 0 catalog).insertionSort scoreGE).take n).map
          ((fun p => p.product_id) ∘ Prod.fst))
        (((scoredList tags perturb 0 catalog).insertionSort scoreGE).map
          ((fun p => p.product_id) ∘ Prod.fst)) :=
    (List.take_sublist n _).map _
  refine hsub.nodup ?_
  have hperm :
      List.Perm
        (((scoredList tags perturb 0 catalog).insertionSort scoreGE).map
          ((fun p => p.product_id) ∘ Prod.fst))
        ((scoredList tags perturb 0 catalog).map
          ((fun p => p.product_id) ∘ Prod.fst)) :=
    (List.perm_insertionSort scoreGE _).map _
  refine hperm.nodup_iff.mpr ?_
  have : (scoredList tags perturb 0 catalog).map
        ((fun p => p.product_id) ∘ Prod.fst) =
      ((scoredList tags perturb 0 catalog).map Prod.fst).map
        (fun p => p.product_id) := by
    rw [List.map_map]
  rw [this, scoredList_map_fst]
  exact h

theorem rankKnown_perm (tags : List String) (perturb : Nat → ℚ)
    (catalog : List Product) (n : Nat) (h : catalog.length ≤ n) :
    List.Perm (rankKnown tags perturb catalog n) catalog := by
  unfold rankKnown
  rw [List.take_of_length_le (by
    rw [(List.perm_insertionSort scoreGE _).length_eq, scoredList_length]
    exact h)]
  have hperm :
      List.Perm (((scoredList tags perturb 0 catalog).insertionSort scoreGE).map Prod.fst)
        ((scoredList tags perturb 0 catalog).map Prod.fst) :=
    (List.perm_insertionSort scoreGE _).map _
  rw [scoredList_map_fst] at hperm
  exact hperm

theorem get_recommendations_known (catalog : List Product) (emotion : String)
    (n : Nat) (perturb : Nat → ℚ) (sample : List Product → Nat → List Product)
    (tags : List String)
    (hknown : _create_emotion_mapping.lookup (pyLower emotion) = some tags)
    (hne : catalog ≠ []) :
    get_recommendations catalog emotion n perturb sample =
      rankKnown tags perturb catalog n := by
  unfold get_recommendations
  rw [if_neg (by simpa using hne), hknown]

theorem dedupFilter_spec (n : Nat) :
    ∀ (l : List Playlist) (seen : List String) (acc : List Playlist),
      ∃ t, dedupFilter n seen acc l = acc ++ t
        ∧ List.Sublist t l
        ∧ (∀ p ∈ t, qualityOk p = true ∧ pyLower p.name ∉ seen)
        ∧ (t.map (fun p => pyLower p.name)).Nodup := by
  intro l
  induction l with
  | nil =>
      intro seen acc
      exact ⟨[], by simp [dedupFilter], List.nil_sublist _, by simp, by simp⟩
  | cons p ps ih =>
      intro seen acc
      by_cases hc : pyLower p.name ∉ seen ∧ qualityOk p = true
      · by_cases hb : n ≤ (acc ++ [p]).length
        · refine ⟨[p], ?_, ?_, ?_, ?_⟩
          · simp only [dedupFilter, if_pos hc, if_pos hb]
          · exact (List.nil_sublist ps).cons₂ p
          · intro q hq
            rw [List.mem_singleton] at hq
            subst hq
            exact ⟨hc.2, hc.1⟩
          · simp
        · obtain ⟨t, h1, h2, h3, h4⟩ := ih (pyLower p.name :: seen) (acc ++ [p])
          refine ⟨p :: t, ?_, h2.cons₂ p, ?_, ?_⟩
          · simp only [dedupFilter, if_pos hc, if_neg hb, h1, List.append_assoc,
              List.singleton_append]
          · intro q hq
            rcases List.mem_cons.1 hq with hqp | hqt
            · subst hqp; exact ⟨hc.2, hc.1⟩
            · obtain ⟨hqual, hnm⟩ := h3 q hqt
              exact ⟨hqual, fun hmem => hnm (List.mem_cons_of_mem _ hmem)⟩
          · rw [List.map_cons, List.nodup_cons]
            refine ⟨?_, h4⟩
            intro hmem
            obtain ⟨q, hqt, hqe⟩ := List.mem_map.1 hmem
            exact (h3 q hqt).2 (hqe ▸ List.mem_cons_self _ _)
      · obtain ⟨t, h1, h2, h3, h4⟩ := ih seen acc
        exact ⟨t, by simp only [dedupFilter, if_neg hc, h1], h2.cons p, h3, h4⟩

theorem dedupFilter_skip (n : Nat) (q : Playlist) :
    ∀ (xs : List Playlist) (seen : List String) (acc ys : List Playlist),
      pyLower q.name ∈ seen →
      dedupFilter n seen acc (xs ++ q :: ys) = dedupFilter n seen acc (xs ++ ys) := by
  intro xs
  induction xs with
  | nil =>
      intro seen acc ys hq
      simp only [List.nil_append]
      have hc : ¬(pyLower q.name ∉ seen ∧ qualityOk q = true) := fun h => h.1 hq
      simp only [dedupFilter, if_neg hc]
  | cons x xs ih =>
      intro seen acc ys hq
      simp only [List.cons_append, dedupFilter]
      by_cases hc : pyLower x.name ∉ seen ∧ qualityOk x = true
      · simp only [if_pos hc]
        by_cases hb : n ≤ (acc ++ [x]).length
        · simp only [if_pos hb]
        · simp only [if_neg hb]
          exact ih (pyLower x.name :: seen) (acc ++ [x]) ys
            (List.mem_cons_of_mem _ hq)
      · simp only [if_neg hc]
        exact ih seen acc ys hq

theorem dedupFilter_reject (n : Nat) (p : Playlist) (hq : qualityOk p = false) :
    ∀ (xs : List Playlist) (seen : List String) (acc ys : List Playlist),
      dedupFilter n seen acc (xs ++ p :: ys) = dedupFilter n seen acc (xs ++ ys) := by
  intro xs
  induction xs with
  | nil =>
      intro seen acc ys
      simp only [List.nil_append]
      have hc : ¬(pyLower p.name ∉ seen ∧ qualityOk p = true) := by
        rintro ⟨-, h2⟩
        rw [hq] at h2
        exact Bool.false_ne_true h2
      simp only [dedupFilter, if_neg hc]
  | cons x xs ih =>
      intro seen acc ys
      simp only [List.cons_append, dedupFilter]
      by_cases hc : pyLower x.name ∉ seen ∧ qualityOk x = true
      · simp only [if_pos hc]
        by_cases hb : n ≤ (acc ++ [x]).length
        · simp only [if_pos hb]
        · simp only [if_neg hb]
          exact ih (pyLower x.name :: seen) (acc ++ [x]) ys
      · simp only [if_neg hc]
        exact ih seen acc ys

theorem dedupFilter_first_wins (n : Nat) (p q : Playlist)
    (hname : pyLower q.name = pyLower p.name) (hq : qualityOk p = true) :
    ∀ (xs : List Playlist) (seen : List String) (acc mid ys : List Playlist),
      dedupFilter n seen acc (xs ++ p :: mid ++ q :: ys) =
        dedupFilter n seen acc (xs ++ p :: mid ++ ys) := by
  intro xs
  induction xs with
  | nil =>
      intro seen acc mid ys
      simp only [List.nil_append]
      by_cases hm : pyLower p.name ∉ seen
      · have hc : pyLower p.name ∉ seen ∧ qualityOk p = true := ⟨hm, hq⟩
        simp only [List.cons_append, dedupFilter, if_pos hc]
        by_cases hb : n ≤ (acc ++ [p]).length
        · simp only [if_pos hb]
        · simp only [if_neg hb]
          exact dedupFilter_skip n q mid (pyLower p.name :: seen) (acc ++ [p]) ys
            (by rw [hname]; exact List.mem_cons_self _ _)
      · have hc : ¬(pyLower p.name ∉ seen ∧ qualityOk p = true) := fun h => hm h.1
        simp only [List.cons_append, dedupFilter, if_neg hc]
        exact dedupFilter_skip n q mid seen acc ys
          (by rw [hname]; exact not_not.mp hm)
  | cons x xs ih =>
      intro seen acc mid ys
      simp only [List.cons_append, dedupFilter]
      by_cases hc : pyLower x.name ∉ seen ∧ qualityOk x = true
      · simp only [if_pos hc]
        by_cases hb : n ≤ (acc ++ [x]).length
        · simp only [if_pos hb]
        · simp only [if_neg hb]
          have := ih (pyLower x.name :: seen) (acc ++ [x]) mid ys
          simpa only [List.cons_append] using this
      · simp only [if_neg hc]
        have := ih seen acc mid ys
        simpa only [List.cons_append] using this

theorem get_recommendations_unknown (catalog : List Product) (emotion : String)
    (n : Nat) (perturb : Nat → ℚ) (sample : List Product → Nat → List Product)
    (hnone : _create_emotion_mapping.lookup (pyLower emotion) = none)
    (hne : catalog ≠ []) :
    get_recommendations catalog emotion n perturb sample =
      sample catalog (min n catalog.length) := by
  unfold get_recommendations
  rw [if_neg (by simpa using hne), hnone]

/-! ### Claim theorems -/

/-- C1, counterexample to the claim as stated: for the `happy` descriptor
tags and the item tagged `"entertainment, music, joy, fun"`, the score
`|E ∩ T| / |E ∪ T|` computed by `get_recommendations` is `3/7`
(intersection `{entertainment, joy, fun}`, union of 7 tags), not the
`4/6` the claim asserts. -/
theorem C1_jaccard_counterexample :
    _create_emotion_mapping.lookup "happy" =
      some ["entertainment", "social", "celebration", "joy", "fun", "colorful"]
    ∧ jaccard_score ["entertainment", "social", "celebration", "joy", "fun", "colorful"]
        (product_tag_list "entertainment, music, joy, fun") = mkRat 3 7
    ∧ mkRat 3 7 ≠ mkRat 4 6 :=
  ⟨by decide, by decide, by decide⟩

/-- C1, amended: for the one-item catalog tagged
`"entertainment, music, joy, fun"` and emotion `"happy"`, the
pre-perturbation Jaccard score is `3/7 ≈ 0.429`, and the item appears in
`rank("happy", catalog, 1)` for every perturbation draw and sampler. -/
theorem C1_end_to_end_amended (perturb : Nat → ℚ)
    (sample : List Product → Nat → List Product) :
    get_recommendations [headphonesItem] "happy" 1 perturb sample = [headphonesItem]
    ∧ jaccard_score ["entertainment", "social", "celebration", "joy", "fun", "colorful"]
        (product_tag_list headphonesItem.mood_tags) = mkRat 3 7 := by
  constructor
  · rw [get_recommendations_known [headphonesItem] "happy" 1 perturb sample
      ["entertainment", "social", "celebration", "joy", "fun", "colorful"]
      (by decide) (by simp)]
    simp [rankKnown, scoredList, List.insertionSort, List.orderedInsert]
  · decide

/-- C4, counterexample to the claim as stated: `" HAPPY "` equals the
vocabulary key `"happy"` after lower-casing and trimming, yet
`get_recommendations` does not trim, so `" HAPPY "` takes the
random-sample fallback branch (here: a sampler returning nothing, hence
`[]`), while the same call with `"HAPPY"` is Jaccard-ranked and returns
one item. -/
theorem C4_no_trim_counterexample :
    _create_emotion_mapping.lookup (pyStrip (pyLower " HAPPY ")) =
      some ["entertainment", "social", "celebration", "joy", "fun", "colorful"]
    ∧ get_recommendations [prodA, prodB] " HAPPY " 1 zeroPerturb emptySample = []
    ∧ get_recommendations [prodA, prodB] "HAPPY" 1 zeroPerturb emptySample ≠ [] := by
  refine ⟨by decide, by decide, ?_⟩
  rw [get_recommendations_known [prodA, prodB] "HAPPY" 1 zeroPerturb emptySample
    ["entertainment", "social", "celebration", "joy", "fun", "colorful"]
    (by decide) (by simp)]
  intro h
  have hlen := rankKnown_length
    ["entertainment", "social", "celebration", "joy", "fun", "colorful"]
    zeroPerturb [prodA, prodB] 1
  rw [h] at hlen
  simp at hlen

/-- C4, amended: `get_recommendations` normalizes the emotion by
lower-casing only (no whitespace trimming).  On a non-empty catalog, a
label whose lower-casing is a vocabulary key is ranked by Jaccard scores
over that key's descriptor tags, and a label whose lower-casing is not a
key — including still-padded labels such as `" HAPPY "` — returns the
sampler's uniform-random sample of `min(topN, |catalog|)` items rather
than an error. -/
theorem C4_lowercase_only_amended (catalog : List Product) (emotion : String)
    (n : Nat) (perturb : Nat → ℚ) (sample : List Product → Nat → List Product) :
    (∀ tags, catalog ≠ [] →
      _create_emotion_mapping.lookup (pyLower emotion) = some tags →
      get_recommendations catalog emotion n perturb sample =
        rankKnown tags perturb catalog n)
    ∧ (catalog ≠ [] →
      _create_emotion_mapping.lookup (pyLower emotion) = none →
      get_recommendations catalog emotion n perturb sample =
        sample catalog (min n catalog.length)) :=
  ⟨fun tags hne hk => get_recommendations_known catalog emotion n perturb sample tags hk hne,
   fun hne hn => get_recommendations_unknown catalog emotion n perturb sample hn hne⟩

/-- Witness for `C4_lowercase_only_amended` at concrete inputs. -/
theorem C4_lowercase_only_amended_witness :
    get_recommendations [prodA] " HAPPY " 3 zeroPerturb emptySample =
      emptySample [prodA] (min 3 1)
    ∧ get_recommendations [prodA] "HAPPY" 3 zeroPerturb emptySample =
        rankKnown ["entertainment", "social", "celebration", "joy", "fun", "colorful"]
          zeroPerturb [prodA] 3 :=
  ⟨(C4_lowercase_only_amended [prodA] " HAPPY " 3 zeroPerturb emptySample).2
      (by simp) (by decide),
   (C4_lowercase_only_amended [prodA] "HAPPY" 3 zeroPerturb emptySample).1
      ["entertainment", "social", "celebration", "joy", "fun", "colorful"]
      (by simp) (by decide)⟩

/-- C5: for every known emotion (descriptor tags `tags`), every catalog,
every `n`, every perturbation draw and every sampler, `rank` returns at
most `min(n, |catalog|)` items, each drawn from the catalog, with no
duplicate ids (given the catalog's ids are duplicate-free); an empty
catalog yields `[]`; `n ≥ |catalog|` returns a permutation of the full
catalog; the returned list is the head of the score-descending sorted
scored rows with the internal `relevance_score` component stripped by
`map Prod.fst`. -/
theorem C5_rank_contract (catalog : List Product) (emotion : String) (n : Nat)
    (perturb : Nat → ℚ) (sample : List Product → Nat → List Product)
    (tags : List String)
    (hknown : _create_emotion_mapping.lookup (pyLower emotion) = some tags) :
    (get_recommendations catalog emotion n perturb sample).length ≤ min n catalog.length
    ∧ (∀ p ∈ get_recommendations catalog emotion n perturb sample, p ∈ catalog)
    ∧ ((catalog.map (fun p => p.product_id)).Nodup →
        ((get_recommendations catalog emotion n perturb sample).map
          (fun p => p.product_id)).Nodup)
    ∧ (catalog = [] → get_recommendations catalog emotion n perturb sample = [])
    ∧ (catalog.length ≤ n →
        List.Perm (get_recommendations catalog emotion n perturb sample) catalog)
    ∧ List.Sorted scoreGE ((scoredList tags perturb 0 catalog).insertionSort scoreGE)
    ∧ (catalog ≠ [] →
        get_recommendations catalog emotion n perturb sample =
          (((scoredList tags perturb 0 catalog).insertionSort scoreGE).take n).map
            Prod.fst) := by
  by_cases hempty : catalog = []
  · subst hempty
    exact ⟨by simp [get_recommendations], by simp [get_recommendations],
      fun _ => by simp [get_recommendations],
      fun _ => rfl,
      fun _ => by simp [get_recommendations],
      by simp [scoredList, List.insertionSort, List.Sorted],
      fun h => absurd rfl h⟩
  · have heq := get_recommendations_known catalog emotion n perturb sample tags hknown hempty
    rw [heq]
    exact ⟨le_of_eq (rankKnown_length tags perturb catalog n),
      fun p hp => rankKnown_mem tags perturb catalog n p hp,
      fun h => rankKnown_nodup_ids tags perturb catalog n h,
      fun h => absurd h hempty,
      fun h => rankKnown_perm tags perturb catalog n h,
      List.sorted_insertionSort scoreGE _,
      fun _ => rfl⟩

/-- Witness for `C5_rank_contract` at concrete inputs. -/
theorem C5_rank_contract_witness :
    (get_recommendations [prodA, prodB] "happy" 5 zeroPerturb emptySample).length ≤
      min 5 2
    ∧ ((get_recommendations [prodA, prodB] "happy" 5 zeroPerturb emptySample).map
        (fun p => p.product_id)).Nodup
    ∧ List.Perm (get_recommendations [prodA, prodB] "happy" 5 zeroPerturb emptySample)
        [prodA, prodB] :=
  ⟨(C5_rank_contract [prodA, prodB] "happy" 5 zeroPerturb emptySample
      ["entertainment", "social", "celebration", "joy", "fun", "colorful"]
      (by decide)).1,
   (C5_rank_contract [prodA, prodB] "happy" 5 zeroPerturb emptySample
      ["entertainment", "social", "celebration", "joy", "fun", "colorful"]
      (by decide)).2.2.1 (by decide),
   (C5_rank_contract [prodA, prodB] "happy" 5 zeroPerturb emptySample
      ["entertainment", "social", "celebration", "joy", "fun", "colorful"]
      (by decide)).2.2.2.2.1 (by decide)⟩

/-- C2, counterexample to the claim as stated: `add_product` never calls
`validate_product_data`; adding a dict with a missing `price` field (which
the validator rejects) still changes and re-persists the catalog; and the
validator accepts a negative price, so non-negativity is not checked
anywhere. -/
theorem C2_add_validation_counterexample :
    (validate_product_data missingPriceProduct).fst = false
    ∧ add_product [] missingPriceProduct = [missingPriceProduct]
    ∧ add_product [] missingPriceProduct ≠ []
    ∧ (validate_product_data negativePriceProduct).fst = true
    ∧ mkRat (-5) 1 < mkRat 0 1 :=
  ⟨by decide, rfl, by simp [add_product], by decide, by decide⟩

/-- C2, amended: `add_product` performs no validation — it appends the
item and re-persists the full catalog for every input.  The separate
helper `validate_product_data` (never invoked by `add_product`) reports
valid exactly when all four required fields are present and `price` and
`product_id` are numerically convertible; it does not require `price` to
be non-negative. -/
theorem C2_add_appends_amended :
    (∀ (catalog : List ProductData) (d : ProductData),
      add_product catalog d = catalog ++ [d])
    ∧ (∀ d : ProductData, (validate_product_data d).fst = true ↔
        ((∃ v, d.lookup "product_id" = some v ∧ pyIntConvertible v = true)
          ∧ (d.lookup "name").isSome
          ∧ (∃ v, d.lookup "price" = some v ∧ pyFloatConvertible v = true)
          ∧ (d.lookup "mood_tags").isSome)) := by
  constructor
  · intro catalog d
    rfl
  · intro d
    simp only [validate_product_data, required_fields, firstMissingField]
    rcases hpid : d.lookup "product_id" with _ | vid <;>
      rcases hname : d.lookup "name" with _ | vn <;>
        rcases hprice : d.lookup "price" with _ | vp <;>
          rcases hmt : d.lookup "mood_tags" with _ | vm <;>
            simp [hpid, hname, hprice, hmt] <;>
              cases hfv : pyFloatConvertible vp <;>
                cases hiv : pyIntConvertible vid <;>
                  simp [hfv, hiv]

/-- C3, counterexample to the claim as stated: `log_feedback` performs no
validation — a record whose rating `6` lies outside `[1, 5]` is appended
anyway, so the stored log does not stay unchanged. -/
theorem C3_no_validation_counterexample :
    ¬ (mkRat 6 1 ≤ mkRat 5 1)
    ∧ log_feedback [] "2024-01-01T00:00:00" "happy" (mkRat 1 2) (mkRat 6 1) "" 3 ≠ []
    ∧ (log_feedback [] "2024-01-01T00:00:00" "happy" (mkRat 1 2) (mkRat 6 1) "" 3).length
        = 1 :=
  ⟨by decide, by simp [log_feedback], by simp [log_feedback]⟩

/-- C3, amended: `log_feedback` validates nothing; for every input —
including ratings outside `[1, 5]` and confidences outside `[0, 1]` — it
stamps the record with the call-time timestamp (`datetime.now()`, local
time, ISO-8601) and appends exactly that one record to the existing log,
which it rewrites in full. -/
theorem C3_append_amended (df : List FeedbackRecord) (now emotion : String)
    (confidence rating : ℚ) (feedback_text : String) (num_recommendations : Int) :
    (log_feedback df now emotion confidence rating feedback_text
        num_recommendations).length = df.length + 1
    ∧ (log_feedback df now emotion confidence rating feedback_text
        num_recommendations).take df.length = df
    ∧ (log_feedback df now emotion confidence rating feedback_text
        num_recommendations).getLast? =
      some { timestamp := now, detected_emotion := emotion,
             confidence := confidence, rating := rating,
             feedback_text := feedback_text,
             num_recommendations := num_recommendations } := by
  unfold log_feedback
  exact ⟨by simp, List.take_left df _, List.getLast?_concat _⟩

/-- C6: on an `Unavailable` adapter (`self.client is None`),
`get_playlists_by_mood` returns `[]` immediately, for every mood —
including the empty string and `None` — for every `n`, and for every
provider behaviour (the result does not depend on `search`, so no search
call is issued). -/
theorem C6_unavailable_returns_empty (search : String → List Playlist)
    (mood : Option String) (n_playlists : Nat) :
    get_playlists_by_mood false search mood n_playlists = [] := rfl

/-- C7: deduplication in `get_playlists_by_mood` is case-insensitive,
first-occurrence-wins and order-preserving: when an accepted candidate `p`
(quality-passing) precedes a candidate `q` with the same lower-cased name,
the output is exactly what it would be with `q` removed; the output is a
subsequence of the accumulated raw list (no re-sorting); and output names
are pairwise distinct up to case. -/
theorem C7_dedup_first_wins (n : Nat) (pre mid post : List Playlist)
    (p q : Playlist) (hname : pyLower q.name = pyLower p.name)
    (hq : qualityOk p = true) :
    dedupFilter n [] [] (pre ++ p :: mid ++ q :: post) =
      dedupFilter n [] [] (pre ++ p :: mid ++ post)
    ∧ List.Sublist (dedupFilter n [] [] (pre ++ p :: mid ++ q :: post))
        (pre ++ p :: mid ++ q :: post)
    ∧ ((dedupFilter n [] [] (pre ++ p :: mid ++ q :: post)).map
        (fun x => pyLower x.name)).Nodup := by
  obtain ⟨t, h1, h2, h3, h4⟩ := dedupFilter_spec n (pre ++ p :: mid ++ q :: post) [] []
  refine ⟨dedupFilter_first_wins n p q hname hq pre [] [] mid post, ?_, ?_⟩
  · rw [h1]
    simpa using h2
  · rw [h1]
    simpa using h4

/-- Witness for `C7_dedup_first_wins`: of `"Happy Vibes"` followed by
`"happy vibes"` (both quality-passing), only the first-seen is retained. -/
theorem C7_dedup_first_wins_witness :
    dedupFilter 5 [] [] [happyVibesMix, happyVibesLower] =
      dedupFilter 5 [] [] [happyVibesMix]
    ∧ dedupFilter 5 [] [] [happyVibesMix] = [happyVibesMix] := by
  refine ⟨?_, by decide⟩
  have h := (C7_dedup_first_wins 5 [] [] [] happyVibesMix happyVibesLower
    (by decide) (by decide)).1
  simpa using h

/-- C8: the quality filter of `get_playlists_by_mood` keeps exactly the
candidates with name length `> 3` and `total_tracks > 10`: every
candidate in the dedup-filter output passes it, a candidate with name
length 4 and track count 11 passes, and candidates with name length 3 or
track count 10 are dropped. -/
theorem C8_quality_filter :
    (∀ p : Playlist, qualityOk p = true ↔ (3 < p.name.length ∧ 10 < p.total_tracks))
    ∧ (∀ (n : Nat) (l : List Playlist) (p : Playlist),
        p ∈ dedupFilter n [] [] l → qualityOk p = true)
    ∧ (∀ p : Playlist, p.name.length = 4 → p.total_tracks = 11 → qualityOk p = true)
    ∧ (∀ p : Playlist, p.name.length = 3 → qualityOk p = false)
    ∧ (∀ p : Playlist, p.total_tracks = 10 → qualityOk p = false) := by
  refine ⟨fun p => by simp [qualityOk], ?_, ?_, ?_, ?_⟩
  · intro n l p hp
    obtain ⟨t, h1, h2, h3, h4⟩ := dedupFilter_spec n l [] []
    rw [h1] at hp
    simp only [List.nil_append] at hp
    exact (h3 p hp).1
  · intro p h1 h2
    simp [qualityOk, h1, h2]
  · intro p h1
    simp [qualityOk, h1]
  · intro p h2
    simp [qualityOk, h2]

/-- Witness for `C8_quality_filter` at the boundary values 3/4 and 10/11. -/
theorem C8_quality_filter_witness :
    qualityOk boundaryPass = true
    ∧ qualityOk boundaryShortName = false
    ∧ qualityOk boundaryFewTracks = false
    ∧ qualityOk happyVibesMix = true :=
  ⟨C8_quality_filter.2.2.1 boundaryPass (by decide) rfl,
   C8_quality_filter.2.2.2.1 boundaryShortName (by decide),
   C8_quality_filter.2.2.2.2 boundaryFewTracks rfl,
   C8_quality_filter.2.1 5 [happyVibesMix] happyVibesMix (by decide)⟩

/-- C10: a candidate rejected by the quality filter does not suppress
later same-named candidates — its name is never recorded in the seen set,
and removing it from the accumulated raw list leaves the dedup-filter
output unchanged. -/
theorem C10_rejected_no_suppression (n : Nat) (pre post : List Playlist)
    (p : Playlist) (hq : qualityOk p = false) :
    dedupFilter n [] [] (pre ++ p :: post) = dedupFilter n [] [] (pre ++ post) :=
  dedupFilter_reject n p hq pre [] [] post

/-- Witness for `C10_rejected_no_suppression`: a small `"Happy Vibes"`
(10 tracks or fewer) fails the filter and a later `"happy vibes"` that
passes it is still retained. -/
theorem C10_rejected_no_suppression_witness :
    qualityOk happyVibesSmall = false
    ∧ dedupFilter 5 [] [] [happyVibesSmall, happyVibesLower] =
        dedupFilter 5 [] [] [happyVibesLower]
    ∧ dedupFilter 5 [] [] [happyVibesLower] = [happyVibesLower] := by
  refine ⟨by decide, ?_, by decide⟩
  have h := C10_rejected_no_suppression 5 [] [happyVibesLower] happyVibesSmall
    (by decide)
  simpa using h

/-- C9: appending a feedback record and summarizing reflects the record:
`total_feedback` grows by 1 and the emotion's count grows by 1, for every
prior log; and starting from an empty log, appending
`{emotion: "sad", confidence: 0.82, rating: 4, feedback_text: "",
num_recommendations: 5}` yields `total_feedback = 1`,
`average_rating = 4`, `emotion_distribution["sad"] = 1`, and confidence
mean = min = max = 0.82 = 41/50. -/
theorem C9_append_then_summarize :
    (∀ (df : List FeedbackRecord) (now emotion : String) (confidence rating : ℚ)
        (feedback_text : String) (num_recommendations : Int),
      ∃ s, export_feedback_summary
            (log_feedback df now emotion confidence rating feedback_text
              num_recommendations) = some s
        ∧ s.total_feedback = df.length + 1
        ∧ s.emotion_distribution emotion =
            (df.filter (fun r => r.detected_emotion == emotion)).length + 1)
    ∧ (∃ s, export_feedback_summary
          (log_feedback [] "2024-01-01T00:00:00" "sad" (mkRat 82 100) (mkRat 4 1)
            "" 5) = some s
        ∧ s.total_feedback = 1
        ∧ s.average_rating = 4
        ∧ s.emotion_distribution "sad" = 1
        ∧ s.confidence_mean = mkRat 41 50
        ∧ s.confidence_min = mkRat 41 50
        ∧ s.confidence_max = mkRat 41 50) := by
  constructor
  · intro df now emotion confidence rating feedback_text num_recommendations
    simp only [log_feedback, export_feedback_summary]
    rw [if_neg (by simp)]
    refine ⟨_, rfl, by simp, ?_⟩
    simp [List.filter_append]
  · refine ⟨_, rfl, rfl, ?_, ?_, ?_, ?_, ?_⟩
    all_goals
      simp [export_feedback_summary, log_feedback, List.min?, List.max?,
        Rat.mkRat_eq_div]
    all_goals norm_num
